import Mathlib

/-!
Shallow embedding of the SmartKhethi fertilizer-recommendation API
(src/api/index.py) and proofs about its specified behaviour.

Modelling conventions:
- Python dict-shaped JSON values are modelled by `Json` (numbers as `Int`;
  the source only compares and shifts them by integer constants).
- Python expressions that can raise are modelled in `Except String`;
  a `try/except` block is a `match` on the `Except` result.
- Python truthiness of optional query parameters is modelled explicitly
  (`none`, `some 0` and `some ""` are falsy).
-/

/-- A JSON value as the weather provider may return it. -/
inductive Json where
  | num (n : Int)
  | str (s : String)
  | obj (fields : List (String × Json))
deriving Repr

/-- Python `value[key]`: raises KeyError on a missing key, TypeError on a
non-dict, mirrored as `Except.error`. -/
def Json.getItem : Json → String → Except String Json
  | .obj fs, k =>
    match fs.lookup k with
    | some v => Except.ok v
    | none => Except.error ("KeyError: " ++ k)
  | .num _, _ => Except.error "TypeError: int is not subscriptable"
  | .str _, _ => Except.error "TypeError: string indices must be integers"

/-- Python `value.get(key, default)`: only dicts have `.get`; anything else
raises AttributeError. -/
def Json.getDefault : Json → String → Json → Except String Json
  | .obj fs, k, d => Except.ok ((fs.lookup k).getD d)
  | .num _, _, _ => Except.error "AttributeError: int has no attribute get"
  | .str _, _, _ => Except.error "AttributeError: str has no attribute get"

/-- Python `value - k` for an integer constant k: TypeError unless numeric. -/
def Json.sub : Json → Int → Except String Int
  | .num n, k => Except.ok (n - k)
  | .str _, _ => Except.error "TypeError: unsupported operand type for -"
  | .obj _, _ => Except.error "TypeError: unsupported operand type for -"

/-- Python `value + k` for an integer constant k: TypeError unless numeric. -/
def Json.add : Json → Int → Except String Int
  | .num n, k => Except.ok (n + k)
  | .str _, _ => Except.error "TypeError: unsupported operand type for +"
  | .obj _, _ => Except.error "TypeError: unsupported operand type for +"

/-- Python `value > k` for an integer constant k: TypeError unless numeric. -/
def Json.gtNum : Json → Int → Except String Bool
  | .num n, k => Except.ok (decide (k < n))
  | .str _, _ => Except.error "TypeError: comparison not supported"
  | .obj _, _ => Except.error "TypeError: comparison not supported"

/-- Python `value < k` for an integer constant k: TypeError unless numeric. -/
def Json.ltNum : Json → Int → Except String Bool
  | .num n, k => Except.ok (decide (n < k))
  | .str _, _ => Except.error "TypeError: comparison not supported"
  | .obj _, _ => Except.error "TypeError: comparison not supported"

/-- Rendering of a JSON value inside the advisory f-string. -/
def jsonText : Json → String
  | .num n => toString n
  | .str s => s
  | .obj _ => "dict"

/-- The weather dict built by `get_weather_data`: either the ok snapshot with
its six weather fields, or the error snapshot carrying a message. -/
inductive PySnapshot where
  | ok (temperature rainfall humidity wind_speed soil_temp soil_moisture : Json)
  | error (message : String)
deriving Repr

/-- Everything the external weather call may do, as seen by
`get_weather_data`: `requests.get` raising, `response.json()` raising on a
malformed body, or a parsed JSON payload of any shape. -/
inductive ProviderBehavior where
  | netError (msg : String)
  | badJson (msg : String)
  | payload (data : Json)

/-- The body of the `try:` block of `get_weather_data` (src/api/index.py
lines 43-51), evaluating the dict-literal entries in source order; each
subscript or arithmetic step may raise. -/
def get_weather_body (data : Json) : Except String PySnapshot :=
  match data.getItem "main" with
  | .error e => Except.error e
  | .ok main =>
  match main.getItem "temp" with
  | .error e => Except.error e
  | .ok temp =>
  match data.getDefault "rain" (Json.obj []) with
  | .error e => Except.error e
  | .ok rainObj =>
  match rainObj.getDefault "1h" (Json.num 0) with
  | .error e => Except.error e
  | .ok rainfall =>
  match main.getItem "humidity" with
  | .error e => Except.error e
  | .ok humidity =>
  match data.getItem "wind" with
  | .error e => Except.error e
  | .ok windObj =>
  match windObj.getItem "speed" with
  | .error e => Except.error e
  | .ok wind_speed =>
  match temp.sub 2 with
  | .error e => Except.error e
  | .ok tempShift =>
  match humidity.add 10 with
  | .error e => Except.error e
  | .ok humidShift =>
    Except.ok (PySnapshot.ok temp rainfall humidity wind_speed
      (Json.num (max 10 tempShift)) (Json.num (min 100 humidShift)))

/-- `get_weather_data` (src/api/index.py lines 32-53): the whole body sits in
`try/except Exception`, so any raised exception becomes the error snapshot. -/
def get_weather_data : ProviderBehavior → PySnapshot
  | .netError m => PySnapshot.error m
  | .badJson m => PySnapshot.error m
  | .payload data =>
    match get_weather_body data with
    | .ok s => s
    | .error e => PySnapshot.error e

/-- True when the provider payload carries no hourly rainfall reading
(no "rain" object, or a "rain" object without the "1h" key). -/
def hourly_rain_missing (data : Json) : Bool :=
  match data with
  | .obj fs =>
    match fs.lookup "rain" with
    | none => true
    | some (.obj rs) => (rs.lookup "1h").isNone
    | some _ => false
  | _ => true

/-- One row of the in-memory reference table `SAMPLE_DATA`. -/
structure SoilCropRow where
  soil_type : String
  crop_type : String
  avail_N : Int
  avail_P : Int
  exch_K : Int
deriving Repr, DecidableEq

/-- The static reference table (src/api/index.py lines 24-30), row by row. -/
def SAMPLE_DATA : List SoilCropRow :=
  [⟨"Red", "Rice", 250, 8, 100⟩,
   ⟨"Black", "Cotton", 300, 12, 120⟩,
   ⟨"Sandy", "Maize", 200, 6, 80⟩,
   ⟨"Clay", "Wheat", 220, 9, 90⟩,
   ⟨"Loamy", "Sugarcane", 280, 11, 110⟩]

/-- The pandas filter + emptiness check + `iloc[0]` of
`fertilizer_recommendation`: keep the rows matching both keys exactly and
take the first, if any. -/
def lookupRow (soil crop : String) : Option SoilCropRow :=
  (SAMPLE_DATA.filter fun r => r.soil_type == soil && r.crop_type == crop).head?

/-- The argument `get_weather_data` is called with: a `(lat, lon)` tuple or a
place-name string. -/
inductive LocationKey where
  | coords (lat lon : Int)
  | name (s : String)
deriving Repr, DecidableEq

/-- The query parameters of `fertilizer_recommendation` /
`/api/recommend` (coordinates modelled as integers; only their Python
truthiness and identity matter to the control flow). -/
structure Request where
  soil_type : String
  crop_type : String
  land_size : Int
  fallow_years : Int
  use_my_location : Bool
  lat : Option Int
  lon : Option Int
  manual_location : Option String
deriving Repr

/-- Python truthiness of an optional string (None and "" are falsy). -/
def truthyOptStr : Option String → Bool
  | none => false
  | some s => !s.isEmpty

/-- Python truthiness of an optional number (None and 0 are falsy). -/
def truthyOptNum : Option Int → Bool
  | none => false
  | some n => n != 0

/-- The repeated Python condition `use_my_location and lat and lon`. -/
def use_coords (req : Request) : Bool :=
  req.use_my_location && truthyOptNum req.lat && truthyOptNum req.lon

/-- The fixed default snapshot used when no live weather is fetched
(src/api/index.py lines 141-149). -/
def default_weather : PySnapshot :=
  PySnapshot.ok (Json.num 25) (Json.num 0) (Json.num 60) (Json.num 2)
    (Json.num 23) (Json.num 50)

/-- The weather-resolution block of `fertilizer_recommendation`
(src/api/index.py lines 134-149), parameterized by the API key from the
environment and by the behaviour `fetch` of `get_weather_data` at each
location key. -/
def resolve_weather (apiKey : Option String) (fetch : LocationKey → PySnapshot)
    (req : Request) : PySnapshot :=
  if (use_coords req && truthyOptStr apiKey)
      || (truthyOptStr req.manual_location && truthyOptStr apiKey) then
    if use_coords req then
      fetch (LocationKey.coords (req.lat.getD 0) (req.lon.getD 0))
    else
      fetch (LocationKey.name (req.manual_location.getD ""))
  else
    default_weather

/-- The value `fertilizer_recommendation` returns: a dict with an `error`
key, or the recommendation dict. -/
inductive RecResult where
  | error (msg : String)
  | recommendation (fertilizers : List String) (land_size_m2 : Int) (fallow_years : Int)
      (weather : PySnapshot)
deriving Repr

/-- `fertilizer_recommendation` (src/api/index.py lines 123-170): reference
lookup, weather resolution, status check, then the three independent
threshold rules appended in fixed order. -/
def fertilizer_recommendation (apiKey : Option String)
    (fetch : LocationKey → PySnapshot) (req : Request) : RecResult :=
  match lookupRow req.soil_type req.crop_type with
  | none => RecResult.error "No data for this soil-crop combination."
  | some row =>
    match resolve_weather apiKey fetch req with
    | .error m => RecResult.error m
    | .ok t r h w st sm =>
      RecResult.recommendation
        ((if row.avail_N < 280 then ["Urea"] else []) ++
         (if row.avail_P < 10 then ["Single Super Phosphate"] else []) ++
         (if row.exch_K < 110 then ["Muriate of Potash"] else []))
        req.land_size req.fallow_years (PySnapshot.ok t r h w st sm)

/-- The heavy-rain advisory line of `generate_farmer_message`. -/
def heavy_rain_line : String := "🚨 **Heavy rain warning!** Avoid all field work today."

/-- The delay-fertilizer advisory line. -/
def rain_expected_line : String := "🌧️ **Rain expected.** Delay fertilizer application."

/-- The dry-conditions advisory line. -/
def dry_conditions_line : String := "☀️ **Dry conditions.** Water crops if needed."

/-- The strong-winds advisory line. -/
def strong_wind_line : String := "💨 **Strong winds!** No spraying today."

/-- The breezy-conditions advisory line. -/
def breezy_line : String := "🌬️ **Breezy conditions.** Spray carefully."

/-- The cold-soil advisory line. -/
def cold_soil_line : String := "❄️ **Cold soil.** Delay planting warm-season crops."

/-- The hot-soil advisory line. -/
def hot_soil_line : String := "🔥 **Hot soil.** Water deeply in early morning."

/-- The waterlogged-soil advisory line. -/
def waterlogged_line : String := "💧 **Waterlogged soil.** Improve drainage."

/-- The dry-soil advisory line. -/
def dry_soil_line : String := "🏜️ **Dry soil.** Irrigate soon."

/-- The Urea application line. -/
def urea_line : String := "🔵 **Apply Urea** (140kg/acre for nitrogen)"

/-- The Single Super Phosphate application line. -/
def ssp_line : String := "🟢 **Apply SSP** (50kg/acre for phosphorus)"

/-- The Muriate of Potash application line. -/
def mop_line : String := "🟣 **Apply MOP** (40kg/acre for potassium)"

/-- The long-fallow advisory line. -/
def long_fallow_line : String := "⚠️ **Long fallow period!** Plant green manure crops."

/-- The rainfall if/elif/else chain of `generate_farmer_message`
(src/api/index.py lines 63-68): picks exactly one of the three lines, first
match wins; comparing a non-number raises. -/
def rainfall_advice (rainfall : Json) : Except String String :=
  match rainfall.gtNum 10 with
  | .error e => Except.error e
  | .ok true => Except.ok heavy_rain_line
  | .ok false =>
  match rainfall.gtNum 5 with
  | .error e => Except.error e
  | .ok true => Except.ok rain_expected_line
  | .ok false => Except.ok dry_conditions_line

/-- The wind if/elif chain (src/api/index.py lines 70-73): zero or one line. -/
def wind_advice (wind_speed : Json) : Except String (List String) :=
  match wind_speed.gtNum 8 with
  | .error e => Except.error e
  | .ok true => Except.ok [strong_wind_line]
  | .ok false =>
  match wind_speed.gtNum 5 with
  | .error e => Except.error e
  | .ok true => Except.ok [breezy_line]
  | .ok false => Except.ok []

/-- The `weather_advice` list of `generate_farmer_message`: the rainfall line
followed by the wind lines, evaluated in source order. -/
def weather_advice (rainfall wind_speed : Json) : Except String (List String) :=
  match rainfall_advice rainfall with
  | .error e => Except.error e
  | .ok rline =>
  match wind_advice wind_speed with
  | .error e => Except.error e
  | .ok wlines => Except.ok (rline :: wlines)

/-- The soil-temperature if/elif chain (src/api/index.py lines 77-80). -/
def soil_temp_advice (soil_temp : Json) : Except String (List String) :=
  match soil_temp.ltNum 15 with
  | .error e => Except.error e
  | .ok true => Except.ok [cold_soil_line]
  | .ok false =>
  match soil_temp.gtNum 30 with
  | .error e => Except.error e
  | .ok true => Except.ok [hot_soil_line]
  | .ok false => Except.ok []

/-- The soil-moisture if/elif chain (src/api/index.py lines 82-85). -/
def soil_moisture_advice (soil_moisture : Json) : Except String (List String) :=
  match soil_moisture.gtNum 85 with
  | .error e => Except.error e
  | .ok true => Except.ok [waterlogged_line]
  | .ok false =>
  match soil_moisture.ltNum 40 with
  | .error e => Except.error e
  | .ok true => Except.ok [dry_soil_line]
  | .ok false => Except.ok []

/-- The fertilizer membership checks (src/api/index.py lines 88-94). -/
def fert_advice (fertilizers : List String) : List String :=
  (if fertilizers.contains "Urea" then [urea_line] else []) ++
  (if fertilizers.contains "Single Super Phosphate" then [ssp_line] else []) ++
  (if fertilizers.contains "Muriate of Potash" then [mop_line] else [])

/-- `generate_farmer_message` (src/api/index.py lines 55-121): builds the
advice lists in source order and fills the advisory template; subscripting
the error snapshot or comparing a non-numeric field raises. -/
def generate_farmer_message (fertilizers : List String)
    (land_size fallow_years : Int) (weather : PySnapshot) : Except String String :=
  match weather with
  | .error _ => Except.error "KeyError: rainfall"
  | .ok _temperature rainfall _humidity wind_speed soil_temp soil_moisture =>
    match weather_advice rainfall wind_speed with
    | .error e => Except.error e
    | .ok wadv =>
    match soil_temp_advice soil_temp with
    | .error e => Except.error e
    | .ok stlines =>
    match soil_moisture_advice soil_moisture with
    | .error e => Except.error e
    | .ok smlines =>
      let soil_adv := stlines ++ smlines
      let fert_adv := fert_advice fertilizers
      let fallow_msg := if 2 ≤ fallow_years then long_fallow_line else ""
      Except.ok
        ("\n    🌱 **FARMER ADVISORY** 🌱\n    ========================\n    **FIELD CONDITIONS:**\n    - Land: "
          ++ toString land_size ++ "m² | Fallow: " ++ toString fallow_years
          ++ " year(s)\n    - Soil Temp: " ++ jsonText soil_temp
          ++ "°C | Moisture: " ++ jsonText soil_moisture
          ++ "%\n    \n    **WEATHER ALERTS:**\n    "
          ++ String.intercalate "\n" wadv
          ++ "\n    \n    **SOIL CARE:**\n    "
          ++ (if soil_adv.isEmpty then "✅ Soil conditions normal"
              else String.intercalate "\n" soil_adv)
          ++ "\n    \n    **FERTILIZER PLAN:**\n    "
          ++ (if fert_adv.isEmpty then "✅ No fertilizers needed now"
              else String.intercalate "\n" fert_adv)
          ++ "\n    \n    **SPECIAL NOTES:**\n    "
          ++ (if fallow_msg.isEmpty then "No critical issues detected" else fallow_msg)
          ++ "\n    ")

/-- A Python exception reaching the handler's `except` clause: an
`HTTPException` raised inside the `try` block, or any other exception. -/
inductive PyExc where
  | httpExc (status : Nat) (detail : String)
  | runtimeExc (msg : String)
deriving Repr

/-- Python `str(e)`: Starlette's HTTPException prints as
"status_code: detail". -/
def pyExcStr : PyExc → String
  | .httpExc status detail => toString status ++ ": " ++ detail
  | .runtimeExc m => m

/-- The HTTP response of `GET /api/recommend`: a 200 JSON payload (the
recommendation dict plus the attached farmer message) or an error status
with a detail string. -/
inductive HttpOutcome where
  | ok (fertilizers : List String) (land_size_m2 : Int) (fallow_years : Int)
      (weather : PySnapshot) (farmer_message : String)
  | failure (status : Nat) (detail : String)
deriving Repr

/-- The body of the `try:` block of `get_recommendation` (src/api/index.py
lines 187-206): call the engine, raise HTTPException(400) on an error dict,
else render and attach the farmer message. -/
def get_recommendation_body (apiKey : Option String)
    (fetch : LocationKey → PySnapshot) (req : Request) : Except PyExc HttpOutcome :=
  match fertilizer_recommendation apiKey fetch req with
  | .error msg => Except.error (PyExc.httpExc 400 msg)
  | .recommendation fs ls fy w =>
    match generate_farmer_message fs ls fy w with
    | .error e => Except.error (PyExc.runtimeExc e)
    | .ok m => Except.ok (HttpOutcome.ok fs ls fy w m)

/-- `get_recommendation` (src/api/index.py lines 176-208): the `except
Exception` clause catches every exception raised in the body — including the
deliberately raised HTTPException(400) — and re-raises it as
HTTPException(500, str(e)). -/
def get_recommendation (apiKey : Option String)
    (fetch : LocationKey → PySnapshot) (req : Request) : HttpOutcome :=
  match get_recommendation_body apiKey fetch req with
  | .ok resp => resp
  | .error e => HttpOutcome.failure 500 (pyExcStr e)

/-- A weather oracle used for concrete evaluations: it reports which kind of
location key it was invoked with. -/
def probe_fetch : LocationKey → PySnapshot
  | .coords _ _ => PySnapshot.error "coords-used"
  | .name _ => PySnapshot.error "name-used"

/-- A weather oracle that is never consulted in the default-weather runs. -/
def no_fetch : LocationKey → PySnapshot := fun _ => PySnapshot.error "unused"

/-- The head of a filtered list is its first element satisfying the
predicate: connects the pandas filter/iloc idiom to `List.find?`. -/
theorem head_of_filter_eq_find (p : SoilCropRow → Bool) (l : List SoilCropRow) :
    (l.filter p).head? = l.find? p := by
  induction l with
  | nil => rfl
  | cons a t ih =>
    by_cases h : p a
    · simp [List.filter_cons, List.find?_cons, h]
    · simp [List.filter_cons, List.find?_cons, h, ih]

/-- Claim C1: whenever the engine returns a recommendation for a request
whose (soil_type, crop_type) matches a reference row, the fertilizers list
contains "Urea" iff the row's available nitrogen is < 280, "Single Super
Phosphate" iff available phosphorus is < 10, and "Muriate of Potash" iff
exchangeable potassium is < 110, and the list is a sublist of the fixed
order Urea, Single Super Phosphate, Muriate of Potash. -/
theorem fertilizers_iff_thresholds_in_fixed_order (apiKey : Option String)
    (fetch : LocationKey → PySnapshot) (req : Request) (row : SoilCropRow)
    (fs : List String) (ls fy : Int) (w : PySnapshot)
    (hrow : lookupRow req.soil_type req.crop_type = some row)
    (hrec : fertilizer_recommendation apiKey fetch req =
      RecResult.recommendation fs ls fy w) :
    (("Urea" ∈ fs) ↔ row.avail_N < 280) ∧
    (("Single Super Phosphate" ∈ fs) ↔ row.avail_P < 10) ∧
    (("Muriate of Potash" ∈ fs) ↔ row.exch_K < 110) ∧
    fs.Sublist ["Urea", "Single Super Phosphate", "Muriate of Potash"] := by
  simp only [fertilizer_recommendation, hrow] at hrec
  cases hw : resolve_weather apiKey fetch req with
  | error m => simp only [hw] at hrec; cases hrec
  | ok t r h ws st sm =>
    simp only [hw, RecResult.recommendation.injEq] at hrec
    obtain ⟨hfs, _, _, _⟩ := hrec
    subst hfs
    by_cases h1 : row.avail_N < 280 <;> by_cases h2 : row.avail_P < 10 <;>
      by_cases h3 : row.exch_K < 110 <;>
      simp [h1, h2, h3]

/-- Claim C1 witness: the Red/Rice row (nitrogen 250, phosphorus 8,
potassium 100) triggers all three fertilizers in the fixed order. -/
theorem fertilizers_iff_thresholds_witness :
    (("Urea" ∈ ["Urea", "Single Super Phosphate", "Muriate of Potash"]) ↔
      (250 : Int) < 280) ∧
    (("Single Super Phosphate" ∈ ["Urea", "Single Super Phosphate", "Muriate of Potash"]) ↔
      (8 : Int) < 10) ∧
    (("Muriate of Potash" ∈ ["Urea", "Single Super Phosphate", "Muriate of Potash"]) ↔
      (100 : Int) < 110) ∧
    List.Sublist ["Urea", "Single Super Phosphate", "Muriate of Potash"]
      ["Urea", "Single Super Phosphate", "Muriate of Potash"] :=
  fertilizers_iff_thresholds_in_fixed_order none no_fetch
    ⟨"Red", "Rice", 100, 1, false, none, none, none⟩ ⟨"Red", "Rice", 250, 8, 100⟩
    ["Urea", "Single Super Phosphate", "Muriate of Potash"] 100 1 default_weather
    rfl rfl

/-- Claim C2 (refuted by the code — the catch-all rewraps the 400): for a
request with no matching reference row, and for one whose fetched weather
snapshot has status error, the endpoint responds with HTTP 500 whose detail
is the printed HTTPException(400), not with HTTP 400 as specified. -/
theorem domain_errors_surface_as_500 :
    get_recommendation none no_fetch
      ⟨"Red", "Wheat", 100, 1, false, none, none, none⟩ =
      HttpOutcome.failure 500 "400: No data for this soil-crop combination." ∧
    get_recommendation (some "K") probe_fetch
      ⟨"Red", "Rice", 100, 1, true, some 3, some 5, none⟩ =
      HttpOutcome.failure 500 "400: coords-used" :=
  ⟨rfl, rfl⟩

/-- Claim C3: for every behaviour of the external weather call,
`get_weather_data` never raises: it returns the ok snapshot with its six
weather fields or the error snapshot with a message; every exception raised
in the body (and every network or JSON-decoding failure) is converted into
the error snapshot carrying the exception text. -/
theorem get_weather_data_never_raises :
    (∀ b : ProviderBehavior,
      (∃ t r h w st sm, get_weather_data b = PySnapshot.ok t r h w st sm) ∨
      (∃ m, get_weather_data b = PySnapshot.error m)) ∧
    (∀ (d : Json) (m : String), get_weather_body d = Except.error m →
      get_weather_data (ProviderBehavior.payload d) = PySnapshot.error m) ∧
    (∀ m : String, get_weather_data (ProviderBehavior.netError m) = PySnapshot.error m ∧
      get_weather_data (ProviderBehavior.badJson m) = PySnapshot.error m) := by
  refine ⟨?_, ?_, ?_⟩
  · intro b
    cases hgd : get_weather_data b with
    | ok t r h w st sm => exact Or.inl ⟨t, r, h, w, st, sm, rfl⟩
    | error m => exact Or.inr ⟨m, rfl⟩
  · intro d m hm
    simp [get_weather_data, hm]
  · intro m
    exact ⟨rfl, rfl⟩

/-- Claim C3 witness: the empty-object payload (missing "main" field) yields
the error snapshot, not an exception. -/
theorem get_weather_data_never_raises_witness :
    get_weather_data (ProviderBehavior.payload (Json.obj [])) =
      PySnapshot.error "KeyError: main" :=
  get_weather_data_never_raises.2.1 (Json.obj []) "KeyError: main" rfl

/-- Claim C4: the engine's result is always either an error value or a full
recommendation; and a recommendation is returned only when a matching
reference row exists and the resolved weather snapshot has status ok, with
every field of the recommendation filled from the request and that
snapshot. -/
theorem recommendation_all_or_nothing (apiKey : Option String)
    (fetch : LocationKey → PySnapshot) (req : Request) :
    ((∃ m, fertilizer_recommendation apiKey fetch req = RecResult.error m) ∨
     (∃ fs ls fy w, fertilizer_recommendation apiKey fetch req =
        RecResult.recommendation fs ls fy w)) ∧
    (∀ fs ls fy w, fertilizer_recommendation apiKey fetch req =
        RecResult.recommendation fs ls fy w →
      (∃ row, lookupRow req.soil_type req.crop_type = some row) ∧
      (∃ t r h ws st sm, w = PySnapshot.ok t r h ws st sm) ∧
      w = resolve_weather apiKey fetch req ∧
      ls = req.land_size ∧ fy = req.fallow_years) := by
  constructor
  · cases hr : fertilizer_recommendation apiKey fetch req with
    | error m => exact Or.inl ⟨m, rfl⟩
    | recommendation fs ls fy w => exact Or.inr ⟨fs, ls, fy, w, rfl⟩
  · intro fs ls fy w hrec
    unfold fertilizer_recommendation at hrec
    cases hrow : lookupRow req.soil_type req.crop_type with
    | none => simp only [hrow] at hrec; cases hrec
    | some row =>
      simp only [hrow] at hrec
      cases hw : resolve_weather apiKey fetch req with
      | error m => simp only [hw] at hrec; cases hrec
      | ok t r h ws st sm =>
        simp only [hw, RecResult.recommendation.injEq] at hrec
        obtain ⟨_, hls, hfy, hww⟩ := hrec
        refine ⟨⟨row, rfl⟩, ⟨t, r, h, ws, st, sm, hww.symm⟩, ?_, hls.symm, hfy.symm⟩
        subst hww
        rfl

/-- Claim C4 witness: the Red/Rice default-weather run returns a full
recommendation, so the matching row exists and the weather is the ok
default snapshot. -/
theorem recommendation_all_or_nothing_witness :
    (∃ row, lookupRow "Red" "Rice" = some row) ∧
    (∃ t r h ws st sm, default_weather = PySnapshot.ok t r h ws st sm) ∧
    default_weather =
      resolve_weather none no_fetch ⟨"Red", "Rice", 100, 1, false, none, none, none⟩ ∧
    (100 : Int) = (100 : Int) ∧ (1 : Int) = (1 : Int) :=
  (recommendation_all_or_nothing none no_fetch
      ⟨"Red", "Rice", 100, 1, false, none, none, none⟩).2
    ["Urea", "Single Super Phosphate", "Muriate of Potash"] 100 1 default_weather rfl

/-- Claim C6: with no weather credential configured, the engine resolves the
default snapshot (temperature 25, rainfall 0, humidity 60, wind 2, soil
temperature 23, soil moisture 50) and never consults the weather oracle:
its result is the same for every oracle. -/
theorem no_credential_uses_default_snapshot (f g : LocationKey → PySnapshot)
    (req : Request) :
    resolve_weather none f req = default_weather ∧
    fertilizer_recommendation none f req = fertilizer_recommendation none g req ∧
    default_weather = PySnapshot.ok (Json.num 25) (Json.num 0) (Json.num 60)
      (Json.num 2) (Json.num 23) (Json.num 50) := by
  have hres : ∀ h : LocationKey → PySnapshot, resolve_weather none h req = default_weather := by
    intro h
    simp [resolve_weather, truthyOptStr]
  refine ⟨hres f, ?_, rfl⟩
  unfold fertilizer_recommendation
  rw [hres f, hres g]

/-- Claim C5: the lookup is the first row of the table matching both keys
exactly; every pair present in the table is found (with its exact stored
row), and for every absent pair the engine returns the not-found error
message. -/
theorem lookup_first_exact_match_or_not_found (s c : String) :
    lookupRow s c = SAMPLE_DATA.find? (fun r => r.soil_type == s && r.crop_type == c) ∧
    ((∃ r ∈ SAMPLE_DATA, r.soil_type = s ∧ r.crop_type = c) →
      ∃ r, lookupRow s c = some r ∧ r ∈ SAMPLE_DATA ∧ r.soil_type = s ∧ r.crop_type = c) ∧
    ((∀ r ∈ SAMPLE_DATA, ¬(r.soil_type = s ∧ r.crop_type = c)) →
      ∀ (apiKey : Option String) (fetch : LocationKey → PySnapshot) (ls fy : Int)
        (uml : Bool) (lat lon : Option Int) (ml : Option String),
        fertilizer_recommendation apiKey fetch ⟨s, c, ls, fy, uml, lat, lon, ml⟩ =
          RecResult.error "No data for this soil-crop combination.") := by
  have hfind : lookupRow s c =
      SAMPLE_DATA.find? (fun r => r.soil_type == s && r.crop_type == c) :=
    head_of_filter_eq_find _ _
  refine ⟨hfind, ?_, ?_⟩
  · rintro ⟨r, hmem, hs, hc⟩
    have hsome : (SAMPLE_DATA.find? (fun r => r.soil_type == s && r.crop_type == c)).isSome := by
      rw [List.find?_isSome]
      exact ⟨r, hmem, by simp [hs, hc]⟩
    obtain ⟨r2, hr2⟩ := Option.isSome_iff_exists.mp hsome
    have hmem2 := List.mem_of_find?_eq_some hr2
    have hp := List.find?_some hr2
    simp only [Bool.and_eq_true, beq_iff_eq] at hp
    exact ⟨r2, hfind.trans hr2, hmem2, hp.1, hp.2⟩
  · intro habs apiKey fetch ls fy uml lat lon ml
    have hnone : lookupRow s c = none := by
      rw [hfind, List.find?_eq_none]
      intro r hmem
      simp only [Bool.and_eq_true, beq_iff_eq, not_and]
      intro hs hc
      exact absurd ⟨hs, hc⟩ (habs r hmem)
    unfold fertilizer_recommendation
    simp [hnone]

/-- Claim C5 witness: the (Red, Rice) pair is found with its stored row, and
the absent (Red, Wheat) pair yields the not-found error. -/
theorem lookup_first_exact_match_witness :
    (∃ r, lookupRow "Red" "Rice" = some r ∧ r ∈ SAMPLE_DATA ∧
      r.soil_type = "Red" ∧ r.crop_type = "Rice") ∧
    fertilizer_recommendation none no_fetch
      ⟨"Red", "Wheat", 100, 1, false, none, none, none⟩ =
      RecResult.error "No data for this soil-crop combination." :=
  ⟨(lookup_first_exact_match_or_not_found "Red" "Rice").2.1
      ⟨⟨"Red", "Rice", 250, 8, 100⟩, by decide, rfl, rfl⟩,
   (lookup_first_exact_match_or_not_found "Red" "Wheat").2.2
      (by decide) none no_fetch 100 1 false none none none⟩

/-- Claim C8 counterexample: with a credential configured, the
use-my-location flag set, latitude 0 and longitude 5 supplied, and a manual
place name also supplied, the adapter is invoked with the place name, not
with the coordinate pair — latitude 0 is falsy in Python, so the claim as
stated fails. -/
theorem coords_precedence_fails_at_zero_latitude :
    resolve_weather (some "KEY") probe_fetch
      ⟨"Red", "Rice", 100, 1, true, some 0, some 5, some "Paris"⟩ =
      PySnapshot.error "name-used" ∧
    probe_fetch (LocationKey.coords 0 5) = PySnapshot.error "coords-used" ∧
    resolve_weather (some "KEY") probe_fetch
      ⟨"Red", "Rice", 100, 1, true, some 0, some 5, some "Paris"⟩ ≠
      probe_fetch (LocationKey.coords 0 5) := by
  refine ⟨rfl, rfl, ?_⟩
  intro hcontra
  rw [show resolve_weather (some "KEY") probe_fetch
      ⟨"Red", "Rice", 100, 1, true, some 0, some 5, some "Paris"⟩ =
      PySnapshot.error "name-used" from rfl,
    show probe_fetch (LocationKey.coords 0 5) = PySnapshot.error "coords-used" from rfl]
    at hcontra
  injection hcontra with hmsg
  exact absurd hmsg (by decide)

/-- Claim C8 as amended: with a credential configured, the use-my-location
flag set, and both latitude and longitude supplied and non-zero (Python
truthiness treats a 0 coordinate as absent), the Weather Adapter is invoked
with the coordinate pair, even when a manual place name is also supplied. -/
theorem coords_take_precedence_when_truthy (key : String)
    (f : LocationKey → PySnapshot) (req : Request) (la lo : Int)
    (hk : key ≠ "") (hu : req.use_my_location = true)
    (hla : req.lat = some la) (hla0 : la ≠ 0)
    (hlo : req.lon = some lo) (hlo0 : lo ≠ 0) :
    resolve_weather (some key) f req = f (LocationKey.coords la lo) := by
  have hkey : truthyOptStr (some key) = true := by
    have hke : key.isEmpty = false := by
      rw [Bool.eq_false_iff]
      intro habs
      exact hk ((String.isEmpty_iff key).mp habs)
    simp [truthyOptStr, hke]
  have huc : use_coords req = true := by
    simp [use_coords, hu, hla, hlo, truthyOptNum, hla0, hlo0]
  simp [resolve_weather, hkey, huc, hla, hlo]

/-- Claim C8 witness: latitude 3 and longitude 5 with manual location
"Paris" supplied — the oracle is consulted at the coordinate pair. -/
theorem coords_take_precedence_witness :
    resolve_weather (some "KEY") probe_fetch
      ⟨"Red", "Rice", 100, 1, true, some 3, some 5, some "Paris"⟩ =
      probe_fetch (LocationKey.coords 3 5) :=
  coords_take_precedence_when_truthy "KEY" probe_fetch
    ⟨"Red", "Rice", 100, 1, true, some 3, some 5, some "Paris"⟩ 3 5
    (by decide) rfl rfl (by decide) rfl (by decide)

/-- Claim C10: when the manual location is absent or empty and — with the
use-my-location flag set — latitude or longitude is absent or zero, the
engine uses the fixed default snapshot and never consults the weather
oracle, even when a credential is configured. -/
theorem falsy_location_uses_default_snapshot (apiKey : Option String)
    (f g : LocationKey → PySnapshot) (req : Request)
    (hman : truthyOptStr req.manual_location = false)
    (hloc : req.use_my_location = false ∨ truthyOptNum req.lat = false ∨
      truthyOptNum req.lon = false) :
    resolve_weather apiKey f req = default_weather ∧
    fertilizer_recommendation apiKey f req = fertilizer_recommendation apiKey g req := by
  have huc : use_coords req = false := by
    rcases hloc with h | h | h <;> simp [use_coords, h]
  have hres : ∀ h : LocationKey → PySnapshot,
      resolve_weather apiKey h req = default_weather := by
    intro h
    simp [resolve_weather, huc, hman]
  refine ⟨hres f, ?_⟩
  unfold fertilizer_recommendation
  rw [hres f, hres g]

/-- Claim C10 witness: flag set with latitude 0 and an empty manual
location, credential configured — the default snapshot is used and the
oracle is irrelevant. -/
theorem falsy_location_uses_default_witness :
    resolve_weather (some "SECRET") probe_fetch
      ⟨"Red", "Rice", 100, 1, true, some 0, some 7, some ""⟩ = default_weather ∧
    fertilizer_recommendation (some "SECRET") probe_fetch
      ⟨"Red", "Rice", 100, 1, true, some 0, some 7, some ""⟩ =
      fertilizer_recommendation (some "SECRET") no_fetch
      ⟨"Red", "Rice", 100, 1, true, some 0, some 7, some ""⟩ :=
  falsy_location_uses_default_snapshot (some "SECRET") probe_fetch no_fetch
    ⟨"Red", "Rice", 100, 1, true, some 0, some 7, some ""⟩ rfl
    (Or.inr (Or.inl (by decide)))

/-- The wind if/elif chain emits the strong-wind line, the breezy line, or
nothing — never a rainfall line. -/
theorem wind_advice_cases (ws : Json) (wl : List String)
    (h : wind_advice ws = Except.ok wl) :
    wl = [strong_wind_line] ∨ wl = [breezy_line] ∨ wl = [] := by
  cases ws with
  | num n =>
    by_cases h8 : (8 : Int) < n
    · simp [wind_advice, Json.gtNum, h8] at h
      exact Or.inl h.symm
    · by_cases h5 : (5 : Int) < n
      · simp [wind_advice, Json.gtNum, h8, h5] at h
        exact Or.inr (Or.inl h.symm)
      · simp [wind_advice, Json.gtNum, h8, h5] at h
        exact Or.inr (Or.inr h)
  | str s => simp [wind_advice, Json.gtNum] at h
  | obj fs => simp [wind_advice, Json.gtNum] at h

/-- Claim C9: for a numeric rainfall reading, the weather-alert list
contains exactly one of the three rainfall lines, first match wins in the
order heavy rain (> 10), delay fertilizer (> 5), dry conditions; in
particular rainfall > 10 never yields the dry-conditions line. -/
theorem rainfall_advice_trichotomy (rn : Int) (wind : Json) (lines : List String)
    (hadv : weather_advice (Json.num rn) wind = Except.ok lines) :
    ((heavy_rain_line ∈ lines) ↔ 10 < rn) ∧
    ((rain_expected_line ∈ lines) ↔ (rn ≤ 10 ∧ 5 < rn)) ∧
    ((dry_conditions_line ∈ lines) ↔ rn ≤ 5) := by
  cases hw : wind_advice wind with
  | error e =>
    cases hra : rainfall_advice (Json.num rn) <;>
      simp [weather_advice, hw, hra] at hadv
  | ok wl =>
    have hwl := wind_advice_cases wind wl hw
    by_cases h10 : (10 : Int) < rn
    · have hra : rainfall_advice (Json.num rn) = Except.ok heavy_rain_line := by
        simp [rainfall_advice, Json.gtNum, h10]
      simp only [weather_advice, hra, hw, Except.ok.injEq] at hadv
      subst hadv
      rcases hwl with h | h | h <;> subst h <;>
        refine ⟨?_, ?_, ?_⟩ <;>
        simp [heavy_rain_line, rain_expected_line, dry_conditions_line,
          strong_wind_line, breezy_line, h10] <;> omega
    · by_cases h5 : (5 : Int) < rn
      · have hra : rainfall_advice (Json.num rn) = Except.ok rain_expected_line := by
          simp [rainfall_advice, Json.gtNum, h10, h5]
        simp only [weather_advice, hra, hw, Except.ok.injEq] at hadv
        subst hadv
        rcases hwl with h | h | h <;> subst h <;>
          refine ⟨?_, ?_, ?_⟩ <;>
          simp [heavy_rain_line, rain_expected_line, dry_conditions_line,
            strong_wind_line, breezy_line, h10, h5] <;> omega
      · have hra : rainfall_advice (Json.num rn) = Except.ok dry_conditions_line := by
          simp [rainfall_advice, Json.gtNum, h10, h5]
        simp only [weather_advice, hra, hw, Except.ok.injEq] at hadv
        subst hadv
        rcases hwl with h | h | h <;> subst h <;>
          refine ⟨?_, ?_, ?_⟩ <;>
          simp [heavy_rain_line, rain_expected_line, dry_conditions_line,
            strong_wind_line, breezy_line, h10, h5] <;> omega

/-- Claim C9 witness: rainfall 12 with wind 2 yields exactly the heavy-rain
line. -/
theorem rainfall_advice_trichotomy_witness :
    ((heavy_rain_line ∈ [heavy_rain_line]) ↔ (10 : Int) < 12) ∧
    ((rain_expected_line ∈ [heavy_rain_line]) ↔ ((12 : Int) ≤ 10 ∧ (5 : Int) < 12)) ∧
    ((dry_conditions_line ∈ [heavy_rain_line]) ↔ (12 : Int) ≤ 5) :=
  rainfall_advice_trichotomy 12 (Json.num 2) [heavy_rain_line] rfl

/-- Claim C7: every ok snapshot produced from a provider payload has a
numeric temperature and humidity with soil_temp = max(10, temperature - 2)
and soil_moisture = min(100, humidity + 10), and its rainfall is 0 whenever
the payload omits the hourly rainfall reading. -/
theorem derived_soil_fields (d t r h w st sm : Json)
    (hok : get_weather_data (ProviderBehavior.payload d) =
      PySnapshot.ok t r h w st sm) :
    (∃ tn, t = Json.num tn ∧ st = Json.num (max 10 (tn - 2))) ∧
    (∃ hn, h = Json.num hn ∧ sm = Json.num (min 100 (hn + 10))) ∧
    (hourly_rain_missing d = true → r = Json.num 0) := by
  have hb : get_weather_body d = Except.ok (PySnapshot.ok t r h w st sm) := by
    simp only [get_weather_data] at hok
    cases hg : get_weather_body d with
    | error e => simp only [hg] at hok; cases hok
    | ok s => simp only [hg] at hok; rw [hok]
  cases d with
  | num n => simp [get_weather_body, Json.getItem] at hb
  | str s0 => simp [get_weather_body, Json.getItem] at hb
  | obj fs =>
    have hrdef : (Json.obj fs).getDefault "rain" (Json.obj []) =
        Except.ok ((List.lookup "rain" fs).getD (Json.obj [])) := rfl
    cases hmain : (Json.obj fs).getItem "main" with
    | error e => simp only [get_weather_body, hmain] at hb; cases hb
    | ok main =>
    cases ht : main.getItem "temp" with
    | error e => simp only [get_weather_body, hmain, ht] at hb; cases hb
    | ok temp0 =>
    cases hr2 : ((List.lookup "rain" fs).getD (Json.obj [])).getDefault "1h" (Json.num 0) with
    | error e =>
      simp only [get_weather_body, hmain, ht, hrdef, hr2] at hb; cases hb
    | ok rain0 =>
    cases hh : main.getItem "humidity" with
    | error e =>
      simp only [get_weather_body, hmain, ht, hrdef, hr2, hh] at hb; cases hb
    | ok hum0 =>
    cases hwi : (Json.obj fs).getItem "wind" with
    | error e =>
      simp only [get_weather_body, hmain, ht, hrdef, hr2, hh, hwi] at hb
      cases hb
    | ok windObj =>
    cases hws : windObj.getItem "speed" with
    | error e =>
      simp only [get_weather_body, hmain, ht, hrdef, hr2, hh, hwi, hws] at hb
      cases hb
    | ok wind0 =>
    cases hsub : temp0.sub 2 with
    | error e =>
      simp only [get_weather_body, hmain, ht, hrdef, hr2, hh, hwi, hws,
        hsub] at hb
      cases hb
    | ok tS =>
    cases hadd : hum0.add 10 with
    | error e =>
      simp only [get_weather_body, hmain, ht, hrdef, hr2, hh, hwi, hws,
        hsub, hadd] at hb
      cases hb
    | ok hS =>
      simp only [get_weather_body, hmain, ht, hrdef, hr2, hh, hwi, hws,
        hsub, hadd, Except.ok.injEq, PySnapshot.ok.injEq] at hb
      obtain ⟨htt, hrr, hhh, hww2, hst, hsm⟩ := hb
      cases temp0 with
      | str x => simp [Json.sub] at hsub
      | obj x => simp [Json.sub] at hsub
      | num tn =>
      cases hum0 with
      | str x => simp [Json.add] at hadd
      | obj x => simp [Json.add] at hadd
      | num hn =>
        simp only [Json.sub, Except.ok.injEq] at hsub
        simp only [Json.add, Except.ok.injEq] at hadd
        refine ⟨⟨tn, htt.symm, ?_⟩, ⟨hn, hhh.symm, ?_⟩, ?_⟩
        · rw [← hst, ← hsub]
        · rw [← hsm, ← hadd]
        · intro hmiss
          cases hlr : List.lookup "rain" fs with
          | none =>
            rw [hlr] at hr2
            simp only [Option.getD, Json.getDefault, Except.ok.injEq] at hr2
            rw [← hrr, ← hr2]
            rfl
          | some rj =>
            cases rj with
            | num x => simp [hourly_rain_missing, hlr] at hmiss
            | str x => simp [hourly_rain_missing, hlr] at hmiss
            | obj rs =>
              have hlr2 : List.lookup "1h" rs = none := by
                simp only [hourly_rain_missing, hlr, Option.isNone_iff_eq_none] at hmiss
                exact hmiss
              rw [hlr] at hr2
              simp only [Option.getD, Json.getDefault, hlr2, Except.ok.injEq] at hr2
              rw [← hrr, ← hr2]

/-- Claim C7 witness: a payload with temperature 5, humidity 95, wind 2 and
no rain object yields soil temperature max(10, 3) = 10, soil moisture
min(100, 105) = 100, and rainfall 0. -/
theorem derived_soil_fields_witness :
    (∃ tn, Json.num 5 = Json.num tn ∧
      Json.num 10 = Json.num (max 10 (tn - 2))) ∧
    (∃ hn, Json.num 95 = Json.num hn ∧
      Json.num 100 = Json.num (min 100 (hn + 10))) ∧
    (hourly_rain_missing (Json.obj [("main", Json.obj [("temp", Json.num 5),
        ("humidity", Json.num 95)]), ("wind", Json.obj [("speed", Json.num 2)])]) = true →
      Json.num 0 = Json.num 0) :=
  derived_soil_fields
    (Json.obj [("main", Json.obj [("temp", Json.num 5), ("humidity", Json.num 95)]),
      ("wind", Json.obj [("speed", Json.num 2)])])
    (Json.num 5) (Json.num 0) (Json.num 95) (Json.num 2) (Json.num 10) (Json.num 100)
    rfl
